import Mathlib

/-!
# Verification of the go-ncd-relay `relay` package

Shallow embedding of `relay/relay.go` (vaelen/go-ncd-relay), the driver for
National Control Devices relay/ADC controller boards.

Modelling conventions:
* Go `byte` values are `Nat`s below 256; every Go operation that can wrap is
  embedded with an explicit `% 256` (or `% 65536` for `uint16`).
* Go slice indexing and slicing are partial: `packet[i]` and `packet[lo:hi]`
  panic when out of range, so the embeddings of `IsValid`, `Payload` and the
  Go index/slice expressions return `Option`, with `none` standing for a
  runtime panic.
* The byte stream owned by a `Controller` is modelled by the sequence of
  results its `Write` and `Read` calls produce (`StreamModel`).  The write
  and read retry loops of `sendCommand` walk that sequence; exhausting it
  without finishing models an exchange that blocks forever.
* The goroutine/select race of `sendCommand` is modelled by checking the
  caller's context first: when the context is already expired the
  `ctx.Done()` channel is closed before the freshly spawned worker's first
  blocking stream call can return, so the select takes the timeout branch;
  otherwise the caller waits for the worker (the model's context never
  expires mid-exchange).
-/

namespace NCDRelay

/-- Go conversion `byte(x)` applied to a (possibly negative) `int` value:
truncation to the low 8 bits, two's complement. -/
def byteOfInt (n : Int) : Nat := (n % 256).toNat

/-- Embedding of `Checksum` (relay.go): running byte sum `chk += b` over the
packet, where `byte` addition wraps modulo 256. -/
def Checksum (packet : List Nat) : Nat :=
  packet.foldl (fun chk b => (chk + b) % 256) 0

/-- Embedding of `CreatePacket` (relay.go): append the handshake byte 170 and
the length byte `byte(len(payload))`, then the payload, then the checksum of
everything so far. -/
def CreatePacket (payload : List Nat) : List Nat :=
  let packet : List Nat := 170 :: payload.length % 256 :: payload
  packet ++ [Checksum packet]

/-- Embedding of `Packet.validHandshake`: `packet[0] == 170`; indexing an
empty packet panics (`none`). -/
def validHandshake (packet : List Nat) : Option Bool :=
  (packet.get? 0).map (fun b => b == 170)

/-- Embedding of `Packet.validLength`: `packet[1] == byte(len(packet)-3)`,
where `len(packet)-3` is Go `int` arithmetic (negative for short packets)
truncated by the `byte` conversion; indexing past the end panics (`none`). -/
def validLength (packet : List Nat) : Option Bool :=
  (packet.get? 1).map (fun b => b == byteOfInt ((packet.length : Int) - 3))

/-- Embedding of `Packet.validChecksum`:
`packet[len(packet)-1] == Checksum(packet[0:len(packet)-1])`.  On an empty
packet the index `len(packet)-1 = -1` panics (`none`). -/
def validChecksum (packet : List Nat) : Option Bool :=
  match packet with
  | [] => none
  | _ :: _ =>
    some (packet.getD (packet.length - 1) 0
      == Checksum (packet.take (packet.length - 1)))

/-- Embedding of `Packet.IsValid`:
`validHandshake() && validLength() && validChecksum()` with Go's
short-circuit `&&`; a panic in a sub-check propagates (`none`). -/
def IsValid (packet : List Nat) : Option Bool :=
  match validHandshake packet with
  | none => none
  | some false => some false
  | some true =>
    match validLength packet with
    | none => none
    | some false => some false
    | some true => validChecksum packet

/-- Embedding of `Packet.Payload`: the Go slice `packet[2 : len(packet)-1]`,
which panics (`none`) unless `2 ≤ len(packet)-1`, i.e. unless the packet has
at least 3 bytes. -/
def Payload (packet : List Nat) : Option (List Nat) :=
  if 3 ≤ packet.length then some ((packet.drop 2).take (packet.length - 3))
  else none

/-- Embedding of `parse10Bit` on a two-byte slice `[b0, b1]`:
`((uint16(b[0]) & 3) << 8) + uint16(b[1])` in `uint16` arithmetic. -/
def parse10Bit (b0 b1 : Nat) : Nat :=
  (Nat.land (b0 % 65536) 3 * 256 % 65536 + b1 % 65536) % 65536

/-! ## Request payload construction (the command surface)

Each controller method builds a fixed request payload; relay indices are
`uint16` (so all arithmetic below is modulo 65536), bank/channel/status
arguments are `uint8`. -/

/-- Go `byte(index - 1)` for a `uint16` index: `uint16` wraparound
subtraction, then truncation to 8 bits. -/
def relayLsb (index : Nat) : Nat := (index + 65535) % 65536 % 256

/-- Go `byte(index >> 8)` for a `uint16` index (note: the source shifts
`index`, not `index - 1`). -/
def relayMsb (index : Nat) : Nat := index % 65536 / 256

/-- Request payload built by `Controller.TurnOnRelay`. -/
def turnOnRelayPayload (index : Nat) : List Nat :=
  [254, 48, relayLsb index, relayMsb index]

/-- Request payload built by `Controller.TurnOffRelay`. -/
def turnOffRelayPayload (index : Nat) : List Nat :=
  [254, 47, relayLsb index, relayMsb index]

/-- Request payload built by `Controller.GetRelayStatus`. -/
def getRelayStatusPayload (index : Nat) : List Nat :=
  [254, 44, relayLsb index, relayMsb index]

/-- Request payload built by `Controller.SetBankStatus`. -/
def setBankStatusPayload (status bank : Nat) : List Nat :=
  [254, 140, status % 256, bank % 256]

/-- Request payload built by `Controller.GetBankStatus`. -/
def getBankStatusPayload (bank : Nat) : List Nat :=
  [254, 124, bank % 256]

/-- Request payload built by `Controller.TurnOnRelayByBank`:
`[254, 48, 107 + index, bank]` with `uint8` wraparound addition. -/
def turnOnRelayByBankPayload (index bank : Nat) : List Nat :=
  [254, 48, (107 + index) % 256, bank % 256]

/-- Request payload built by `Controller.TurnOffRelayByBank`:
`[254, 99 + index, bank]` with `uint8` wraparound addition. -/
def turnOffRelayByBankPayload (index bank : Nat) : List Nat :=
  [254, (99 + index) % 256, bank % 256]

/-- Request payload built by `Controller.ReadAD8` and `Controller.ReadAD10`:
`[254, 149 + channel]` with `uint8` wraparound addition. -/
def readADChannelPayload (channel : Nat) : List Nat :=
  [254, (149 + channel) % 256]

/-- Request payload built by `Controller.ReadAllAD8` and
`Controller.ReadAllAD10`. -/
def readAllADPayload : List Nat := [254, 166]

/-! ## The stream and the exchange primitive (`sendCommand`) -/

/-- Result of one call to `stream.Write` inside the worker's write loop:
either some number of bytes were accepted (a short write is allowed) or an
I/O error occurred. -/
inductive WriteEvent where
  | wrote : Nat → WriteEvent
  | ioError : WriteEvent
deriving DecidableEq, Repr

/-- Result of one call to `stream.Read` inside the worker's read loop:
either a chunk of bytes was delivered (a short read is allowed; Go's `Read`
never writes past the buffer it is given, so at most the remaining space is
taken) or an I/O error occurred. -/
inductive ReadEvent where
  | chunk : List Nat → ReadEvent
  | ioError : ReadEvent
deriving DecidableEq, Repr

/-- A duplex stream, modelled by the successive results of its `Write` and
`Read` calls. -/
structure StreamModel where
  writes : List WriteEvent
  reads : List ReadEvent
deriving DecidableEq, Repr

/-- Embedding of the write retry loop of `sendCommand`: keep calling
`stream.Write` with the unwritten suffix until everything is flushed or an
I/O error occurs.  `n` is the number of bytes still to write; `none` models
a loop that never finishes (the stream blocks forever). -/
def writeLoop : List WriteEvent → Nat → Option (Except Unit Unit)
  | _, 0 => some (Except.ok ())
  | [], _ + 1 => none
  | WriteEvent.ioError :: _, _ + 1 => some (Except.error ())
  | WriteEvent.wrote k :: rest, n + 1 => writeLoop rest (n + 1 - min k (n + 1))

/-- Embedding of the read retry loop of `sendCommand`: keep calling
`stream.Read` on the unfilled suffix of the response buffer until
`responseLength` bytes have arrived or an I/O error occurs.  Returns the
bytes read; `none` models a loop that never finishes. -/
def readLoop : List ReadEvent → Nat → Option (Except Unit (List Nat))
  | _, 0 => some (Except.ok [])
  | [], _ + 1 => none
  | ReadEvent.ioError :: _, _ + 1 => some (Except.error ())
  | ReadEvent.chunk b :: rest, n + 1 =>
    (readLoop rest (n + 1 - (b.take (n + 1)).length)).map
      (Except.map (fun tail => b.take (n + 1) ++ tail))

/-- The body of the goroutine spawned by `sendCommand`: write the whole
request packet, then read exactly `responseLength` response bytes. -/
def runWorker (s : StreamModel) (packet : List Nat) (responseLength : Nat) :
    Option (Except Unit (List Nat)) :=
  match writeLoop s.writes packet.length with
  | none => none
  | some (Except.error _) => some (Except.error ())
  | some (Except.ok _) => readLoop s.reads responseLength

/-- Outcome of `sendCommand` as observed by its caller. -/
inductive SendResult where
  | ok : List Nat → SendResult
  | ioError : SendResult
  | timedOut : SendResult
deriving DecidableEq, Repr

/-- Embedding of `Controller.sendCommand`: spawn the worker and `select`
between its completion channel and `ctx.Done()`.  When the context is
already expired (`ctxExpired = true`) the `ctx.Done()` channel is closed
before the worker's first blocking stream call returns, so the select takes
the timeout branch and sets `err = ErrTimedOut` without consulting the
stream; otherwise the caller waits for the worker, whose I/O error (if any)
is propagated verbatim.  `none` models an exchange that never returns. -/
def sendCommand (ctxExpired : Bool) (s : StreamModel) (packet : List Nat)
    (responseLength : Nat) : Option SendResult :=
  if ctxExpired then some SendResult.timedOut
  else
    match runWorker s packet responseLength with
    | none => none
    | some (Except.error _) => some SendResult.ioError
    | some (Except.ok bytes) => some (SendResult.ok bytes)

/-! ## Execution primitives and the command methods -/

/-- The error values a controller method can surface: the package-level
sentinels `ErrInvalidResponse` and `ErrTimedOut`, or an error propagated
verbatim from the stream. -/
inductive GoErr where
  | invalidResponse : GoErr
  | timedOut : GoErr
  | ioError : GoErr
deriving DecidableEq, Repr

/-- Observable outcome of one controller method call: a value returned with
a nil error, a non-nil error, an exchange that never returns, or a runtime
panic. -/
inductive Res (α : Type) where
  | ok : α → Res α
  | fail : GoErr → Res α
  | hang : Res α
  | panicked : Res α
deriving DecidableEq, Repr

/-- Embedding of `Controller.ExecuteCommand`: exchange with a fixed response
length of 4, propagate any exchange error, then require the response to
validate; a valid response yields a nil error and no data. -/
def ExecuteCommand (ctxExpired : Bool) (s : StreamModel) (packet : List Nat) :
    Res Unit :=
  match sendCommand ctxExpired s packet 4 with
  | none => Res.hang
  | some SendResult.timedOut => Res.fail GoErr.timedOut
  | some SendResult.ioError => Res.fail GoErr.ioError
  | some (SendResult.ok response) =>
    match IsValid response with
    | none => Res.panicked
    | some false => Res.fail GoErr.invalidResponse
    | some true => Res.ok ()

/-- Embedding of `Controller.ExecuteRead`: exchange with response length
`responseLength + 3`, propagate any exchange error, require the response to
validate, then return its payload with a nil error. -/
def ExecuteRead (ctxExpired : Bool) (s : StreamModel) (packet : List Nat)
    (responseLength : Nat) : Res (List Nat) :=
  match sendCommand ctxExpired s packet (responseLength + 3) with
  | none => Res.hang
  | some SendResult.timedOut => Res.fail GoErr.timedOut
  | some SendResult.ioError => Res.fail GoErr.ioError
  | some (SendResult.ok response) =>
    match IsValid response with
    | none => Res.panicked
    | some false => Res.fail GoErr.invalidResponse
    | some true =>
      match Payload response with
      | none => Res.panicked
      | some p => Res.ok p

/-- Embedding of `Controller.TurnOnRelay`. -/
def TurnOnRelay (ctxExpired : Bool) (s : StreamModel) (index : Nat) :
    Res Unit :=
  ExecuteCommand ctxExpired s (CreatePacket (turnOnRelayPayload index))

/-- Embedding of `Controller.TurnOffRelay`. -/
def TurnOffRelay (ctxExpired : Bool) (s : StreamModel) (index : Nat) :
    Res Unit :=
  ExecuteCommand ctxExpired s (CreatePacket (turnOffRelayPayload index))

/-- Embedding of `Controller.GetRelayStatus`: on a nil error from
`ExecuteRead` the result is `payload[0] == 1` (indexing an empty payload
would panic). -/
def GetRelayStatus (ctxExpired : Bool) (s : StreamModel) (index : Nat) :
    Res Bool :=
  match ExecuteRead ctxExpired s (CreatePacket (getRelayStatusPayload index)) 1 with
  | Res.ok payload =>
    match payload.get? 0 with
    | none => Res.panicked
    | some b => Res.ok (b == 1)
  | Res.fail e => Res.fail e
  | Res.hang => Res.hang
  | Res.panicked => Res.panicked

/-- Embedding of `Controller.SetBankStatus`. -/
def SetBankStatus (ctxExpired : Bool) (s : StreamModel) (bank status : Nat) :
    Res Unit :=
  ExecuteCommand ctxExpired s (CreatePacket (setBankStatusPayload status bank))

/-- Embedding of `Controller.GetBankStatus`: on a nil error from
`ExecuteRead` the result is `payload[0]`. -/
def GetBankStatus (ctxExpired : Bool) (s : StreamModel) (bank : Nat) :
    Res Nat :=
  match ExecuteRead ctxExpired s (CreatePacket (getBankStatusPayload bank)) 1 with
  | Res.ok payload =>
    match payload.get? 0 with
    | none => Res.panicked
    | some b => Res.ok b
  | Res.fail e => Res.fail e
  | Res.hang => Res.hang
  | Res.panicked => Res.panicked

/-- Embedding of `Controller.TurnOnRelayByBank`. -/
def TurnOnRelayByBank (ctxExpired : Bool) (s : StreamModel) (index bank : Nat) :
    Res Unit :=
  ExecuteCommand ctxExpired s (CreatePacket (turnOnRelayByBankPayload index bank))

/-- Embedding of `Controller.TurnOffRelayByBank`. -/
def TurnOffRelayByBank (ctxExpired : Bool) (s : StreamModel) (index bank : Nat) :
    Res Unit :=
  ExecuteCommand ctxExpired s (CreatePacket (turnOffRelayByBankPayload index bank))

/-- Embedding of `Controller.ReadAD8`:
`if err != nil || len(v) < 1 { return 0, err }; return v[0], err`.
When the error is nil and the payload is shorter than 1 byte this returns
the zero value `0` together with the nil error. -/
def ReadAD8 (ctxExpired : Bool) (s : StreamModel) (channel : Nat) : Res Nat :=
  match ExecuteRead ctxExpired s (CreatePacket (readADChannelPayload channel)) 1 with
  | Res.ok v => if v.length < 1 then Res.ok 0 else Res.ok (v.getD 0 0)
  | Res.fail e => Res.fail e
  | Res.hang => Res.hang
  | Res.panicked => Res.panicked

/-- Embedding of `Controller.ReadAllAD8`: the payload bytes are returned
as-is. -/
def ReadAllAD8 (ctxExpired : Bool) (s : StreamModel) : Res (List Nat) :=
  ExecuteRead ctxExpired s (CreatePacket readAllADPayload) 8

/-- Embedding of `Controller.ReadAD10`: requests a 1-byte payload, then
`if err != nil || len(v) < 2 { return 0, err }; return parse10Bit(v), nil`.
When the error is nil and the payload is shorter than 2 bytes this returns
the zero value `0` together with the nil error. -/
def ReadAD10 (ctxExpired : Bool) (s : StreamModel) (channel : Nat) : Res Nat :=
  match ExecuteRead ctxExpired s (CreatePacket (readADChannelPayload channel)) 1 with
  | Res.ok v =>
    if v.length < 2 then Res.ok 0
    else Res.ok (parse10Bit (v.getD 0 0) (v.getD 1 0))
  | Res.fail e => Res.fail e
  | Res.hang => Res.hang
  | Res.panicked => Res.panicked

/-- Embedding of `Controller.ReadAllAD10`: requests a 16-byte payload and
decodes channel `i` from the byte pair `(v[2i], v[2i+1])`; when the error is
nil and the payload is shorter than 16 bytes it returns the nil slice with
the nil error. -/
def ReadAllAD10 (ctxExpired : Bool) (s : StreamModel) : Res (List Nat) :=
  match ExecuteRead ctxExpired s (CreatePacket readAllADPayload) 16 with
  | Res.ok v =>
    if v.length < 16 then Res.ok []
    else Res.ok ((List.range 8).map
      (fun i => parse10Bit (v.getD (2 * i) 0) (v.getD (2 * i + 1) 0)))
  | Res.fail e => Res.fail e
  | Res.hang => Res.hang
  | Res.panicked => Res.panicked

/-! ## Helper lemmas -/

/-- The running wraparound byte sum started at any value below 256 computes
the modulo-256 sum. -/
theorem checksum_foldl (l : List Nat) :
    ∀ c, c < 256 → l.foldl (fun chk b => (chk + b) % 256) c = (c + l.sum) % 256 := by
  induction l with
  | nil => intro c hc; simp [Nat.mod_eq_of_lt hc]
  | cons b t ih =>
    intro c hc
    simp only [List.foldl_cons, List.sum_cons]
    rw [ih ((c + b) % 256) (Nat.mod_lt _ (by omega))]
    omega

/-- Structural form of `CreatePacket`. -/
theorem createPacket_eq (p : List Nat) :
    CreatePacket p =
      170 :: p.length % 256 :: (p ++ [Checksum (170 :: p.length % 256 :: p)]) := rfl

/-- A built packet has three framing bytes around its payload. -/
theorem createPacket_length (p : List Nat) : (CreatePacket p).length = p.length + 3 := by
  rw [createPacket_eq]
  simp only [List.length_cons, List.length_append, List.length_nil]

/-- Bitwise AND with 3 masks to the low two bits. -/
theorem land3_eq_mod4 (n : Nat) : Nat.land n 3 = n % 4 := by
  have h := Nat.and_pow_two_sub_one_eq_mod n 2
  simpa using h

/-- Alternative structural form of `CreatePacket`, with the checksum byte
split off as a final singleton. -/
theorem createPacket_concat (p : List Nat) :
    CreatePacket p =
      (170 :: p.length % 256 :: p) ++ [Checksum (170 :: p.length % 256 :: p)] := rfl

/-- The handshake check succeeds on every built packet. -/
theorem validHandshake_createPacket (p : List Nat) :
    validHandshake (CreatePacket p) = some true := by
  rw [createPacket_eq]
  simp [validHandshake]

/-- The length check succeeds on every built packet. -/
theorem validLength_createPacket (p : List Nat) :
    validLength (CreatePacket p) = some true := by
  unfold validLength
  rw [createPacket_length, createPacket_eq]
  simp only [List.get?_cons_succ, List.get?_cons_zero, Option.map_some',
    Option.some.injEq, beq_iff_eq, byteOfInt]
  omega

/-- Evaluating the checksum check on a nonempty prefix with one byte
appended. -/
theorem validChecksum_concat (a : Nat) (t : List Nat) (c : Nat) :
    validChecksum ((a :: t) ++ [c]) = some (c == Checksum (a :: t)) := by
  rw [List.cons_append]
  simp only [validChecksum]
  rw [← List.cons_append]
  have hlen : ((a :: t) ++ [c]).length - 1 = (a :: t).length := by simp
  rw [hlen, List.getD_eq_getElem?_getD, List.getElem?_concat_length, List.take_left]
  simp

/-- The checksum check succeeds on every built packet. -/
theorem validChecksum_createPacket (p : List Nat) :
    validChecksum (CreatePacket p) = some true := by
  rw [createPacket_concat, validChecksum_concat]
  simp

/-- Every built packet validates, with no payload-length restriction. -/
theorem isValid_createPacket (p : List Nat) :
    IsValid (CreatePacket p) = some true := by
  unfold IsValid
  rw [validHandshake_createPacket, validLength_createPacket,
    validChecksum_createPacket]

/-- On a buffer of at least 2 bytes, `IsValid` cannot panic: every check it
reaches indexes within bounds. -/
theorem isValid_ne_none (a b : Nat) (t : List Nat) :
    IsValid (a :: b :: t) ≠ none := by
  have h1 : validHandshake (a :: b :: t) = some (a == 170) := rfl
  have h2 : validLength (a :: b :: t) =
      some (b == byteOfInt (((a :: b :: t).length : Int) - 3)) := rfl
  unfold IsValid
  rw [h1, h2]
  cases a == 170 <;>
    cases b == byteOfInt (((a :: b :: t).length : Int) - 3) <;>
      simp [validChecksum]

/-- An `Option Bool` that is not a panic is `some true` or `some false`. -/
theorem option_bool_cases (o : Option Bool) (h : o ≠ none) :
    o = some true ∨ o = some false := by
  cases o with
  | none => exact absurd rfl h
  | some b => cases b with
    | true => exact Or.inl rfl
    | false => exact Or.inr rfl

/-- A completed read loop has filled the response buffer exactly. -/
theorem readLoop_ok_length (evs : List ReadEvent) :
    ∀ n bs, readLoop evs n = some (Except.ok bs) → bs.length = n := by
  induction evs with
  | nil =>
    intro n bs h
    cases n with
    | zero =>
      simp only [readLoop, Option.some.injEq, Except.ok.injEq] at h
      subst h; rfl
    | succ n => simp only [readLoop] at h; cases h
  | cons e rest ih =>
    intro n bs h
    cases n with
    | zero =>
      simp only [readLoop, Option.some.injEq, Except.ok.injEq] at h
      subst h; rfl
    | succ n =>
      cases e with
      | ioError => simp only [readLoop] at h; cases h
      | chunk b =>
        simp only [readLoop, Option.map_eq_some'] at h
        obtain ⟨r, hr, hmap⟩ := h
        cases r with
        | error e => simp [Except.map] at hmap
        | ok tail =>
          simp only [Except.map, Except.ok.injEq] at hmap
          subst hmap
          have htail := ih _ _ hr
          have hb : (b.take (n + 1)).length ≤ n + 1 := by
            simp [List.length_take]
          simp only [List.length_append, htail]
          omega

/-- A successful worker returns exactly `responseLength` bytes. -/
theorem runWorker_ok_length (s : StreamModel) (p : List Nat) (n : Nat)
    (bs : List Nat) (h : runWorker s p n = some (Except.ok bs)) :
    bs.length = n := by
  unfold runWorker at h
  cases hw : writeLoop s.writes p.length with
  | none => rw [hw] at h; cases h
  | some w =>
    rw [hw] at h
    cases w with
    | error e => simp at h
    | ok u => exact readLoop_ok_length s.reads n bs h

/-- A successful exchange returns exactly `responseLength` bytes. -/
theorem sendCommand_ok_length (ctx : Bool) (s : StreamModel) (p : List Nat)
    (n : Nat) (resp : List Nat)
    (h : sendCommand ctx s p n = some (SendResult.ok resp)) :
    resp.length = n := by
  unfold sendCommand at h
  cases ctx with
  | true => simp at h
  | false =>
    simp only [Bool.false_eq_true, if_false] at h
    cases hw : runWorker s p n with
    | none => rw [hw] at h; cases h
    | some r =>
      rw [hw] at h
      cases r with
      | error e => simp at h
      | ok bs =>
        have hbs : bs = resp := by simpa using h
        subst hbs
        exact runWorker_ok_length s p n bs hw

/-! ## Claim theorems -/

/-- C4: `Payload (CreatePacket p) = p` for every byte sequence `p` — the
round-trip law between packet construction and payload extraction.  (The
`some` records that the extraction does not panic.) -/
theorem payload_createPacket (p : List Nat) : Payload (CreatePacket p) = some p := by
  have hlen := createPacket_length p
  unfold Payload
  rw [hlen, if_pos (by omega : 3 ≤ p.length + 3)]
  congr 1
  rw [createPacket_eq]
  show (p ++ [Checksum (170 :: p.length % 256 :: p)]).take (p.length + 3 - 3) = p
  have h3 : p.length + 3 - 3 = p.length := by omega
  rw [h3, List.take_left]

/-- C5: `Checksum b` is the modulo-256 sum of the bytes of `b`, and the
checksum is a homomorphism with respect to concatenation (the running sum is
independent of slicing). -/
theorem checksum_sum_mod256_and_append :
    (∀ b : List Nat, Checksum b = b.sum % 256) ∧
    (∀ a b : List Nat, Checksum (a ++ b) = (Checksum a + Checksum b) % 256) := by
  have base : ∀ b : List Nat, Checksum b = b.sum % 256 := by
    intro b
    unfold Checksum
    rw [checksum_foldl b 0 (by omega)]
    omega
  refine ⟨base, fun a b => ?_⟩
  rw [base, base, base, List.sum_append]
  omega

/-- C8: the 10-bit decode of a byte pair is `(b0 AND 3) * 256 + b1`, lies in
0–1023, depends only on the low two bits of the first byte, and maps
`(0x03, 0xFF)` to 1023 and `(0x00, 0x00)` to 0. -/
theorem parse10Bit_spec (b0 b1 : Nat) (h0 : b0 < 256) (h1 : b1 < 256) :
    parse10Bit b0 b1 = Nat.land b0 3 * 256 + b1 ∧
    parse10Bit b0 b1 ≤ 1023 ∧
    parse10Bit b0 b1 = parse10Bit (Nat.land b0 3) b1 ∧
    parse10Bit 3 255 = 1023 ∧
    parse10Bit 0 0 = 0 := by
  refine ⟨?_, ?_, ?_, by decide, by decide⟩
  all_goals unfold parse10Bit
  all_goals simp only [land3_eq_mod4]
  all_goals omega

/-- Witness for C8 at the concrete byte pair `(0x03, 0xFF)`. -/
theorem parse10Bit_spec_witness :
    (3 : Nat) < 256 ∧ (255 : Nat) < 256 ∧
    (parse10Bit 3 255 = Nat.land 3 3 * 256 + 255 ∧
     parse10Bit 3 255 ≤ 1023 ∧
     parse10Bit 3 255 = parse10Bit (Nat.land 3 3) 255 ∧
     parse10Bit 3 255 = 1023 ∧
     parse10Bit 0 0 = 0) :=
  ⟨by omega, by omega, parse10Bit_spec 3 255 (by omega) (by omega)⟩

/-- C9: an exchange started under an already-expired context returns the
timeout error, for every stream, request packet and response length — in
particular the result does not depend on the stream at all (the caller does
not block on it). -/
theorem sendCommand_expired_ctx_timedOut (s : StreamModel) (p : List Nat) (n : Nat) :
    sendCommand true s p n = some SendResult.timedOut := rfl

/-- C2 fails on the code: at relay index 256 the low payload byte is
`byte(256-1) = 255` but the high byte is `byte(256 >> 8) = 1`, not
`(256-1) div 256 = 0` as the claim requires — the source computes the high
byte from `index`, not `index - 1`. -/
theorem relayEncoding_msb_bug_at_256 :
    turnOnRelayPayload 256 = [254, 48, 255, 1] ∧
    turnOffRelayPayload 256 = [254, 47, 255, 1] ∧
    getRelayStatusPayload 256 = [254, 44, 255, 1] ∧
    (256 - 1) % 256 = 255 ∧ (256 - 1) / 256 = 0 := by decide

/-- C3 fails on the code: `IsValid` indexes `packet[0]` on the empty buffer
and `packet[1]` on `[170]`, and `Payload` slices `packet[2 : len-1]` on
every buffer shorter than 3 bytes — all runtime panics (`none`), where the
claim requires a safe `false` / no crash. -/
theorem isValid_payload_panic_on_short_buffers :
    IsValid [] = none ∧ IsValid [170] = none ∧
    Payload [] = none ∧ Payload [170] = none ∧ Payload [170, 255] = none := by decide

/-- C1 fails on the code: `ReadAD10` requests a 1-byte payload, receives the
perfectly valid 4-byte response `[170, 1, 0, 171]`, and then its
`len(v) < 2` guard returns the zero value `0` together with a nil error —
a silent default/zero-value success path. -/
theorem readAD10_silent_zero :
    ReadAD10 false ⟨[WriteEvent.wrote 5], [ReadEvent.chunk [170, 1, 0, 171]]⟩ 1 =
      Res.ok 0 ∧
    IsValid [170, 1, 0, 171] = some true := by decide

/-- C6: every packet built from a payload of length at most 255 validates,
has the handshake byte 170 at index 0 and the length byte `len(p)` at index
1, and its trailing byte is the checksum of all preceding bytes. -/
theorem createPacket_isValid_structure (p : List Nat) (h : p.length ≤ 255) :
    IsValid (CreatePacket p) = some true ∧
    (CreatePacket p).get? 0 = some 170 ∧
    (CreatePacket p).get? 1 = some p.length ∧
    (CreatePacket p).get? (p.length + 2) =
      some (Checksum ((CreatePacket p).take (p.length + 2))) := by
  refine ⟨isValid_createPacket p, ?_, ?_, ?_⟩
  · rw [createPacket_eq]; rfl
  · rw [createPacket_eq]
    simp [Nat.mod_eq_of_lt (by omega : p.length < 256)]
  · have hl : (170 :: p.length % 256 :: p).length = p.length + 2 := by simp
    rw [createPacket_concat, List.get?_eq_getElem?, ← hl,
      List.getElem?_concat_length, List.take_left]

/-- Witness for C6 on the test-vector payload `[254, 48, 0, 0]`. -/
theorem createPacket_isValid_structure_witness :
    ([254, 48, 0, 0] : List Nat).length ≤ 255 ∧
    (IsValid (CreatePacket [254, 48, 0, 0]) = some true ∧
     (CreatePacket [254, 48, 0, 0]).get? 0 = some 170 ∧
     (CreatePacket [254, 48, 0, 0]).get? 1 =
       some ([254, 48, 0, 0] : List Nat).length ∧
     (CreatePacket [254, 48, 0, 0]).get? (([254, 48, 0, 0] : List Nat).length + 2) =
       some (Checksum ((CreatePacket [254, 48, 0, 0]).take
         (([254, 48, 0, 0] : List Nat).length + 2)))) :=
  ⟨by decide, createPacket_isValid_structure [254, 48, 0, 0] (by decide)⟩

/-- C7: once the exchange completes with response bytes, `ExecuteCommand`
has used total response length 4, the validity check cannot panic, a nil
error is returned exactly on a validating response, and the invalid-response
error exactly on a non-validating one; `ExecuteRead` has used total response
length `responseLength + 3` and behaves likewise, returning the payload
slice on success. -/
theorem execute_invalid_response_iff :
    (∀ (ctx : Bool) (s : StreamModel) (p resp : List Nat),
      sendCommand ctx s p 4 = some (SendResult.ok resp) →
      resp.length = 4 ∧ IsValid resp ≠ none ∧
      (ExecuteCommand ctx s p = Res.ok () ↔ IsValid resp = some true) ∧
      (ExecuteCommand ctx s p = Res.fail GoErr.invalidResponse ↔
        IsValid resp = some false)) ∧
    (∀ (ctx : Bool) (s : StreamModel) (p : List Nat) (n : Nat) (resp : List Nat),
      sendCommand ctx s p (n + 3) = some (SendResult.ok resp) →
      resp.length = n + 3 ∧ IsValid resp ≠ none ∧
      (ExecuteRead ctx s p n = Res.fail GoErr.invalidResponse ↔
        IsValid resp = some false) ∧
      (IsValid resp = some true →
        ExecuteRead ctx s p n = Res.ok ((resp.drop 2).take n))) := by
  constructor
  · intro ctx s p resp h
    have hlen := sendCommand_ok_length ctx s p 4 resp h
    have hnn : IsValid resp ≠ none := by
      match resp, hlen with
      | a :: b :: t, _ => exact isValid_ne_none a b t
    have hec : ExecuteCommand ctx s p =
        (match IsValid resp with
         | none => Res.panicked
         | some false => Res.fail GoErr.invalidResponse
         | some true => Res.ok ()) := by
      unfold ExecuteCommand
      rw [h]
    refine ⟨hlen, hnn, ?_, ?_⟩
    · rcases option_bool_cases _ hnn with hv | hv <;> rw [hec, hv] <;> simp
    · rcases option_bool_cases _ hnn with hv | hv <;> rw [hec, hv] <;> simp
  · intro ctx s p n resp h
    have hlen := sendCommand_ok_length ctx s p (n + 3) resp h
    have hnn : IsValid resp ≠ none := by
      match resp, hlen with
      | a :: b :: t, _ => exact isValid_ne_none a b t
    have hpay : Payload resp = some ((resp.drop 2).take n) := by
      unfold Payload
      rw [hlen, if_pos (by omega : 3 ≤ n + 3)]
      have h3 : n + 3 - 3 = n := by omega
      rw [h3]
    have her : ExecuteRead ctx s p n =
        (match IsValid resp with
         | none => Res.panicked
         | some false => Res.fail GoErr.invalidResponse
         | some true =>
           match Payload resp with
           | none => Res.panicked
           | some pl => Res.ok pl) := by
      unfold ExecuteRead
      rw [h]
    refine ⟨hlen, hnn, ?_, ?_⟩
    · rcases option_bool_cases _ hnn with hv | hv <;> rw [her, hpay, hv] <;> simp
    · intro hv
      rw [her, hpay, hv]

/-- Witness for C7 with a concrete completed exchange: request
`CreatePacket [254, 44, 0, 0]`, valid 4-byte response `[170, 1, 85, 0]`. -/
theorem execute_invalid_response_iff_witness :
    (sendCommand false ⟨[WriteEvent.wrote 7], [ReadEvent.chunk [170, 1, 85, 0]]⟩
        (CreatePacket [254, 44, 0, 0]) 4 = some (SendResult.ok [170, 1, 85, 0])) ∧
    (([170, 1, 85, 0] : List Nat).length = 4 ∧ IsValid [170, 1, 85, 0] ≠ none ∧
      (ExecuteCommand false ⟨[WriteEvent.wrote 7], [ReadEvent.chunk [170, 1, 85, 0]]⟩
          (CreatePacket [254, 44, 0, 0]) = Res.ok () ↔
        IsValid [170, 1, 85, 0] = some true) ∧
      (ExecuteCommand false ⟨[WriteEvent.wrote 7], [ReadEvent.chunk [170, 1, 85, 0]]⟩
          (CreatePacket [254, 44, 0, 0]) = Res.fail GoErr.invalidResponse ↔
        IsValid [170, 1, 85, 0] = some false)) :=
  ⟨by decide, execute_invalid_response_iff.1 false
    ⟨[WriteEvent.wrote 7], [ReadEvent.chunk [170, 1, 85, 0]]⟩
    (CreatePacket [254, 44, 0, 0]) [170, 1, 85, 0] (by decide)⟩

/-- C10: whenever `ExecuteRead` returns with a nil error, the returned byte
slice has length exactly `responseLength`. -/
theorem executeRead_ok_length (ctx : Bool) (s : StreamModel) (p : List Nat)
    (n : Nat) (bs : List Nat) (h : ExecuteRead ctx s p n = Res.ok bs) :
    bs.length = n := by
  unfold ExecuteRead at h
  cases hsc : sendCommand ctx s p (n + 3) with
  | none => rw [hsc] at h; cases h
  | some r =>
    rw [hsc] at h
    cases r with
    | timedOut => cases h
    | ioError => cases h
    | ok resp =>
      have hlen := sendCommand_ok_length ctx s p (n + 3) resp hsc
      replace h : (match IsValid resp with
          | none => Res.panicked
          | some false => Res.fail GoErr.invalidResponse
          | some true =>
            match Payload resp with
            | none => Res.panicked
            | some pl => Res.ok pl) = Res.ok bs := h
      cases hv : IsValid resp with
      | none => rw [hv] at h; cases h
      | some b =>
        rw [hv] at h
        cases b with
        | false => cases h
        | true =>
          cases hp : Payload resp with
          | none => rw [hp] at h; cases h
          | some pl =>
            rw [hp] at h
            replace h : Res.ok pl = Res.ok bs := h
            injection h with h
            subst h
            unfold Payload at hp
            rw [hlen, if_pos (by omega : 3 ≤ n + 3)] at hp
            injection hp with hp
            rw [← hp]
            simp only [List.length_take, List.length_drop, hlen]
            omega

/-- Witness for C10: a successful 1-byte read returns exactly 1 byte. -/
theorem executeRead_ok_length_witness :
    ExecuteRead false ⟨[WriteEvent.wrote 7], [ReadEvent.chunk [170, 1, 85, 0]]⟩
      (CreatePacket [254, 44, 0, 0]) 1 = Res.ok [85] ∧
    ([85] : List Nat).length = 1 :=
  ⟨by decide, executeRead_ok_length false
    ⟨[WriteEvent.wrote 7], [ReadEvent.chunk [170, 1, 85, 0]]⟩
    (CreatePacket [254, 44, 0, 0]) 1 [85] (by decide)⟩

end NCDRelay
